import Mathlib

/-!
Shallow embedding of the soxr-rs wrapper crate (src/error.rs, src/format.rs,
src/buffer.rs, src/params.rs, src/lib.rs).

The external resampling engine (the libsoxr C library, reached through the
libsoxr-sys crate) is not part of this repository; every native call the
wrapper makes (soxr_create, soxr_process, soxr_clear) is modelled as an
oracle parameter, and each wrapper operation additionally returns a record
of the arguments it passed to the native call, so that claims about what
reaches the engine are provable.

Pointers are modelled by the data they reference: a diagnostic pointer
(soxr_error_t), which is null on success and otherwise points at a static
string, becomes an Option String; a plane pointer becomes the plane's
element list. Rust panics become Option.none (no value is constructed).
Machine integers are Nat; c_uint is 32 bits wide on every platform the
crate supports, so c_uint::MAX = 2^32 - 1.
-/

/-! ## error.rs -/

/-- Model of `error.rs`: `pub struct Error(&'static CStr)`. The wrapped
static C string is modelled by its contents. -/
structure Error where
  msg : String
deriving DecidableEq, Repr

/-- Model of `error.rs`: synthetic precondition error
`CHANNEL_COUNT_TOO_LARGE`. -/
def CHANNEL_COUNT_TOO_LARGE : Error :=
  ⟨"channel count does not fit in c_uint"⟩

/-- Model of `Error::from_raw`: wrap a non-null diagnostic string. -/
def Error.from_raw (s : String) : Error := ⟨s⟩

/-- Model of `Error::check(error: soxr_error_t)`: a diagnostic pointer is
`none` when null; null yields `Ok(())`, non-null yields `Err(from_raw p)`. -/
def Error.check (error : Option String) : Except Error Unit :=
  match error with
  | none => .ok ()
  | some s => .error (Error.from_raw s)

/-! ## format.rs: sample element model and engine wire tags

The wire-tag constants are the values of the `soxr_datatype_t` enum of the
engine's header (soxr.h), as re-exported by libsoxr-sys:
interleaved variants 0..3, split (planar) variants are interleaved + 4. -/

def SOXR_FLOAT32_I : Nat := 0
def SOXR_FLOAT64_I : Nat := 1
def SOXR_INT32_I : Nat := 2
def SOXR_INT16_I : Nat := 3
def SOXR_FLOAT32_S : Nat := 4
def SOXR_FLOAT64_S : Nat := 5
def SOXR_INT32_S : Nat := 6
def SOXR_INT16_S : Nat := 7

/-- Model of `format.rs`: `pub enum SampleFormat`. Each supported numeric
element type (i16, i32, f32, f64) carries exactly one of these tags via its
`Sample::FORMAT` associated constant. -/
inductive SampleFormat where
  | Int16
  | Int32
  | Float32
  | Float64
deriving DecidableEq, Repr, Fintype

/-- Model of the free function `interleaved::<S>()` in `lib.rs` (lines
164-171): the match on `S::FORMAT`. -/
def interleaved (f : SampleFormat) : Nat :=
  match f with
  | .Int16 => SOXR_INT16_I
  | .Int32 => SOXR_INT32_I
  | .Float32 => SOXR_FLOAT32_I
  | .Float64 => SOXR_FLOAT64_I

/-- Model of the private function `interleaved::<S>()` in `format.rs`
(lines 123-130), a second copy of the same match. -/
def format.interleaved (f : SampleFormat) : Nat :=
  match f with
  | .Int16 => SOXR_INT16_I
  | .Int32 => SOXR_INT32_I
  | .Float32 => SOXR_FLOAT32_I
  | .Float64 => SOXR_FLOAT64_I

/-- Model of the private function `planar::<S>()` in `format.rs`
(lines 132-139). -/
def format.planar (f : SampleFormat) : Nat :=
  match f with
  | .Int16 => SOXR_INT16_S
  | .Int32 => SOXR_INT32_S
  | .Float32 => SOXR_FLOAT32_S
  | .Float64 => SOXR_FLOAT64_S

/-! ## buffer.rs: planar buffers

`PlanarBuf::new` reads the first plane's length (`planes.get(0)` is `None`
for zero channels, in which case the fallback empty slice gives length 0),
then walks the planes with `array::from_fn`, panicking at the first plane
whose length differs. A panic constructs no value: the walk is modelled by
`checkPlanes`, which returns `none` where the source panics, and the stored
plane pointers are modelled by the plane data itself. -/

structure PlanarBuf (S : Type) where
  frames : Nat
  planes : List (List S)
deriving DecidableEq, Repr

structure PlanarMut (S : Type) where
  frames : Nat
  planes : List (List S)
deriving DecidableEq, Repr

/-- The plane-validation walk of `array::from_fn` in `PlanarBuf::new` /
`PlanarMut::new`: each plane whose length differs from `frames` panics
(modelled `none`); otherwise its pointer (modelled: its data) is kept. -/
def checkPlanes {S : Type} (frames : Nat) : List (List S) → Option (List (List S))
  | [] => some []
  | p :: ps =>
    if p.length = frames then
      Option.map (fun rest => p :: rest) (checkPlanes frames ps)
    else
      none

/-- Model of `PlanarBuf::new(planes)` (`buffer.rs` lines 19-35). -/
def PlanarBuf.new {S : Type} (planes : List (List S)) : Option (PlanarBuf S) :=
  let frames := (planes.head?.getD []).length
  Option.map (fun ps => PlanarBuf.mk frames ps) (checkPlanes frames planes)

/-- Model of `PlanarMut::new(planes)` (`buffer.rs` lines 62-78); the source
is a verbatim twin of `PlanarBuf::new` over mutable slices. -/
def PlanarMut.new {S : Type} (planes : List (List S)) : Option (PlanarMut S) :=
  let frames := (planes.head?.getD []).length
  Option.map (fun ps => PlanarMut.mk frames ps) (checkPlanes frames planes)

/-! ## params.rs: configuration value objects -/

/-- Model of `params.rs`: `pub enum QualityRecipe` with its `repr(u8)`
discriminants. -/
inductive QualityRecipe where
  | Quick
  | Low
  | Medium
  | Bits16
  | Bits20
  | Bits24
  | Bits28
  | Bits32
deriving DecidableEq, Repr, Fintype

/-- Model of `QualityRecipe::to_raw`: `self as u8 as c_ulong`. -/
def QualityRecipe.to_raw (r : QualityRecipe) : Nat :=
  match r with
  | .Quick => 0
  | .Low => 1
  | .Medium => 2
  | .Bits16 => 3
  | .Bits20 => 4
  | .Bits24 => 5
  | .Bits28 => 6
  | .Bits32 => 7

/-- Model of `params.rs`: `pub enum Rolloff` with its `repr(u8)`
discriminants 0, 1, 2. -/
inductive Rolloff where
  | Small
  | Medium
  | None
deriving DecidableEq, Repr, Fintype

/-- The `rolloff as u8` cast used by `QualitySpec::configure`. -/
def Rolloff.toRaw (r : Rolloff) : Nat :=
  match r with
  | .Small => 0
  | .Medium => 1
  | .None => 2

/-- Model of the `bitflags!` struct `QualityFlags`: the set of the three
defined flags, `HighPrecisionClock` (bit value 8), `DoublePrecision` (16),
`VariableRate` (32). -/
structure QualityFlags where
  highPrecisionClock : Bool
  doublePrecision : Bool
  variableRate : Bool
deriving DecidableEq, Repr, Fintype

/-- Model of `QualityFlags::bits()`: the union of the set flags' values. -/
def QualityFlags.bits (f : QualityFlags) : Nat :=
  (if f.highPrecisionClock then 8 else 0) |||
  (if f.doublePrecision then 16 else 0) |||
  (if f.variableRate then 32 else 0)

/-- The flag-word packing performed by `QualitySpec::configure`
(`params.rs` lines 90-96): `flags.bits() | rolloff as u8`. -/
def QualitySpec.configureFlags (rolloff : Rolloff) (flags : QualityFlags) : Nat :=
  flags.bits ||| rolloff.toRaw

/-- Model of `QualitySpec::configure(recipe, rolloff, flags)` up to the
native call: the pair of arguments it hands to `sys::soxr_quality_spec`. -/
def QualitySpec.configure (recipe : QualityRecipe) (rolloff : Rolloff)
    (flags : QualityFlags) : Nat × Nat :=
  (recipe.to_raw, QualitySpec.configureFlags rolloff flags)

/-- Model of the native configuration record `sys::soxr_runtime_spec`
(field for field; the engine-private extension pointer `e`, always null
from this layer, is omitted). -/
structure soxr_runtime_spec where
  log2_min_dft_size : Nat
  log2_large_dft_size : Nat
  coef_size_kbytes : Nat
  num_threads : Nat
  flags : Nat
deriving DecidableEq, Repr

/-- Model of `params.rs`: `pub struct RuntimeSpec { raw: sys::soxr_runtime_spec }`. -/
structure RuntimeSpec where
  raw : soxr_runtime_spec
deriving DecidableEq, Repr

/-- Model of `RuntimeSpec::from_raw`. -/
def RuntimeSpec.from_raw (raw : soxr_runtime_spec) : RuntimeSpec := ⟨raw⟩

/-- Getter `RuntimeSpec::log2_min_dft_size` (`params.rs` line 204). -/
def RuntimeSpec.log2_min_dft_size (r : RuntimeSpec) : Nat :=
  r.raw.log2_min_dft_size

/-- Setter `RuntimeSpec::set_log2_min_dft_size`. -/
def RuntimeSpec.set_log2_min_dft_size (r : RuntimeSpec) (v : Nat) : RuntimeSpec :=
  ⟨⟨v, r.raw.log2_large_dft_size, r.raw.coef_size_kbytes, r.raw.num_threads, r.raw.flags⟩⟩

/-- Chainable `RuntimeSpec::with_log2_min_dft_size`. -/
def RuntimeSpec.with_log2_min_dft_size (r : RuntimeSpec) (v : Nat) : RuntimeSpec :=
  r.set_log2_min_dft_size v

/-- Getter `RuntimeSpec::log2_large_dft_size` (`params.rs` line 221). -/
def RuntimeSpec.log2_large_dft_size (r : RuntimeSpec) : Nat :=
  r.raw.log2_large_dft_size

/-- Setter `RuntimeSpec::set_log2_large_dft_size`. -/
def RuntimeSpec.set_log2_large_dft_size (r : RuntimeSpec) (v : Nat) : RuntimeSpec :=
  ⟨⟨r.raw.log2_min_dft_size, v, r.raw.coef_size_kbytes, r.raw.num_threads, r.raw.flags⟩⟩

/-- Chainable `RuntimeSpec::with_log2_large_dft_size`. -/
def RuntimeSpec.with_log2_large_dft_size (r : RuntimeSpec) (v : Nat) : RuntimeSpec :=
  r.set_log2_large_dft_size v

/-- Getter `RuntimeSpec::coef_size_kbytes` (`params.rs` lines 238-240).
NOTE: the source body is `self.raw.log2_large_dft_size`, not
`self.raw.coef_size_kbytes`; the model reproduces the source exactly. -/
def RuntimeSpec.coef_size_kbytes (r : RuntimeSpec) : Nat :=
  r.raw.log2_large_dft_size

/-- Setter `RuntimeSpec::set_coef_size_kbytes` (writes the
`coef_size_kbytes` field). -/
def RuntimeSpec.set_coef_size_kbytes (r : RuntimeSpec) (v : Nat) : RuntimeSpec :=
  ⟨⟨r.raw.log2_min_dft_size, r.raw.log2_large_dft_size, v, r.raw.num_threads, r.raw.flags⟩⟩

/-- Chainable `RuntimeSpec::with_coef_size_kbytes`. -/
def RuntimeSpec.with_coef_size_kbytes (r : RuntimeSpec) (v : Nat) : RuntimeSpec :=
  r.set_coef_size_kbytes v

/-- Getter `RuntimeSpec::num_threads` (`params.rs` line 255). -/
def RuntimeSpec.num_threads (r : RuntimeSpec) : Nat :=
  r.raw.num_threads

/-- Setter `RuntimeSpec::set_num_threads`. -/
def RuntimeSpec.set_num_threads (r : RuntimeSpec) (v : Nat) : RuntimeSpec :=
  ⟨⟨r.raw.log2_min_dft_size, r.raw.log2_large_dft_size, r.raw.coef_size_kbytes, v, r.raw.flags⟩⟩

/-- Chainable `RuntimeSpec::with_num_threads`. -/
def RuntimeSpec.with_num_threads (r : RuntimeSpec) (v : Nat) : RuntimeSpec :=
  r.set_num_threads v

/-! ## lib.rs: resampler session

`Soxr<In, Out, N>` holds one opaque engine handle; the handle itself and
the data the engine writes through it live outside this repository, so the
native calls are oracle parameters:

* `soxr_create` becomes `SoxrCreateFn`: from the channel count it is given,
  the diagnostic the engine would report (`none` = success, the returned
  handle is non-null);
* `soxr_process` becomes `SoxrProcessFn`: from (input pointer is null,
  input length, output length) to the diagnostic and the frame counts the
  engine writes through the `idone`/`odone` out-parameters.

Each wrapper operation also returns the record of the native call it made,
so what reached the engine is part of the result. -/

def cUintMax : Nat := 4294967295

/-- The `c_uint::try_from(N)` conversion in `new_with_params`: succeeds,
with the value unchanged, exactly when the value fits in c_uint. -/
def cUintTryFrom (n : Nat) : Option Nat :=
  if n ≤ cUintMax then some n else none

def SoxrCreateFn : Type := Nat → Option String

/-- What the engine reports from one `soxr_process` call: the diagnostic
pointer and the values written through the consumed/produced
out-parameters. -/
structure EngineProcessResult where
  err : Option String
  consumed : Nat
  produced : Nat
deriving DecidableEq, Repr

def SoxrProcessFn : Type := Bool → Nat → Nat → EngineProcessResult

/-- Record of the arguments one wrapper call passed to `sys::soxr_process`:
whether the input pointer was null, and the input/output lengths. -/
structure ProcessCall where
  inputNull : Bool
  inputLen : Nat
  outputLen : Nat
deriving DecidableEq, Repr

/-- Model of `lib.rs`: `pub struct Processed`. -/
structure Processed where
  input_frames : Nat
  output_frames : Nat
deriving DecidableEq, Repr

/-- Model of `Soxr::<In, Out, N>::new_with_params` (`lib.rs` lines 51-87)
up to the native boundary. The quality/runtime translation and io spec of
the source produce pure configuration records not observable here; the
modelled outcome is the creation result together with the list of channel
counts passed to `sys::soxr_create` (empty when the guard fails before the
native call). -/
def Soxr.new_with_params (create : SoxrCreateFn) (N : Nat) :
    Except Error Unit × List Nat :=
  match cUintTryFrom N with
  | none => (.error CHANNEL_COUNT_TOO_LARGE, [])
  | some channels =>
    match create channels with
    | some diag => (.error (Error.from_raw diag), [channels])
    | none => (.ok (), [channels])

/-- Model of `Soxr::new` (`lib.rs` lines 40-47): delegates to
`new_with_params` with default quality and runtime parameters. -/
def Soxr.new (create : SoxrCreateFn) (N : Nat) : Except Error Unit × List Nat :=
  Soxr.new_with_params create N

/-- Model of `Soxr::process(input, output)` (`lib.rs` lines 95-128).
A frame of the input slice `&[[In; N]]` is modelled as `Fin N → In`;
`input_len`/`output_len` are taken from the frame slices before the
bytemuck cast to flat element slices (which only changes the pointer type,
not the passed lengths). -/
def Soxr.process {In Out : Type} {N : Nat} (engine : SoxrProcessFn)
    (input : List (Fin N → In)) (output : List (Fin N → Out)) :
    Except Error Processed × ProcessCall :=
  let input_len := input.length
  let output_len := output.length
  let call : ProcessCall := ⟨false, input_len, output_len⟩
  let r := engine false input_len output_len
  match Error.check r.err with
  | .error e => (.error e, call)
  | .ok _ => (.ok ⟨r.consumed, r.produced⟩, call)

/-- Model of `Soxr::drain(output)` (`lib.rs` lines 132-152): calls
`sys::soxr_process` with a null input pointer and input length 0, and on
success returns the produced frame count the engine reported. -/
def Soxr.drain {Out : Type} {N : Nat} (engine : SoxrProcessFn)
    (output : List (Fin N → Out)) : Except Error Nat × ProcessCall :=
  let output_len := output.length
  let call : ProcessCall := ⟨true, 0, output_len⟩
  let r := engine true 0 output_len
  match Error.check r.err with
  | .error e => (.error e, call)
  | .ok _ => (.ok r.produced, call)

/-- Model of `Soxr::clear` (`lib.rs` lines 154-156): checks the diagnostic
pointer returned by `sys::soxr_clear`. -/
def Soxr.clear (engineClear : Option String) : Except Error Unit :=
  Error.check engineClear

/-- The public API surface of the `impl Soxr` block in `lib.rs`: one
constructor per `pub fn` the session type exposes. -/
inductive SessionOp where
  | new
  | new_with_params
  | as_ptr
  | process
  | drain
  | clear
deriving DecidableEq, Repr, Fintype

/-- The names of the session's public operations, in source order. -/
def SessionOp.name (op : SessionOp) : String :=
  match op with
  | .new => "new"
  | .new_with_params => "new_with_params"
  | .as_ptr => "as_ptr"
  | .process => "process"
  | .drain => "drain"
  | .clear => "clear"

/-! ## Theorems -/

/-- Helper: the validation walk succeeds exactly when every plane has the
expected length. -/
theorem checkPlanes_isSome_iff {S : Type} (frames : Nat) (planes : List (List S)) :
    (checkPlanes frames planes).isSome = true ↔ ∀ p ∈ planes, p.length = frames := by
  induction planes with
  | nil => simp [checkPlanes]
  | cons p ps ih =>
    by_cases h : p.length = frames
    · simp [checkPlanes, h, ih]
    · simp [checkPlanes, h]

/-- C2: for every array of per-channel slices, `PlanarBuf::new` (and
`PlanarMut::new`) succeeds if and only if every slice's length equals the
first slice's length, in which case `frames()` returns that common length;
a mismatched slice panics (modelled: returns `none`), constructing no
value. -/
theorem planar_new_succeeds_iff_equal_lengths {S : Type} (planes : List (List S)) :
    ((PlanarBuf.new planes).isSome = true ↔
      ∀ p ∈ planes, p.length = (planes.head?.getD []).length) ∧
    ((PlanarMut.new planes).isSome = true ↔
      ∀ p ∈ planes, p.length = (planes.head?.getD []).length) ∧
    (∀ b : PlanarBuf S, PlanarBuf.new planes = some b →
      b.frames = (planes.head?.getD []).length) ∧
    (∀ b : PlanarMut S, PlanarMut.new planes = some b →
      b.frames = (planes.head?.getD []).length) := by
  refine ⟨?_, ?_, ?_, ?_⟩
  · rw [PlanarBuf.new]
    simp [checkPlanes_isSome_iff]
  · rw [PlanarMut.new]
    simp [checkPlanes_isSome_iff]
  · intro b hb
    rw [PlanarBuf.new] at hb
    rcases Option.map_eq_some'.mp hb with ⟨ps, _, hps⟩
    rw [← hps]
  · intro b hb
    rw [PlanarMut.new] at hb
    rcases Option.map_eq_some'.mp hb with ⟨ps, _, hps⟩
    rw [← hps]

/-- Witness for C2 at a concrete input: two planes of length 2 are
accepted and the frame count is 2. -/
theorem planar_new_succeeds_iff_equal_lengths_witness :
    (PlanarBuf.mk 2 [[1, 2], [3, 4]] : PlanarBuf Nat).frames = 2 ∧
    (PlanarMut.mk 2 [[1, 2], [3, 4]] : PlanarMut Nat).frames = 2 :=
  ⟨(planar_new_succeeds_iff_equal_lengths [[1, 2], [3, 4]]).2.2.1
      (PlanarBuf.mk 2 [[1, 2], [3, 4]]) (by decide),
   (planar_new_succeeds_iff_equal_lengths [[1, 2], [3, 4]]).2.2.2
      (PlanarMut.mk 2 [[1, 2], [3, 4]]) (by decide)⟩

/-- C10: with CHANNELS = 0, `PlanarBuf::new` and `PlanarMut::new` accept
the empty array of plane slices without panicking and the resulting
buffer's `frames()` is 0. -/
theorem planar_new_zero_channels (S : Type) :
    PlanarBuf.new ([] : List (List S)) = some (PlanarBuf.mk 0 []) ∧
    PlanarMut.new ([] : List (List S)) = some (PlanarMut.mk 0 []) ∧
    (PlanarBuf.mk 0 ([] : List (List S))).frames = 0 ∧
    (PlanarMut.mk 0 ([] : List (List S))).frames = 0 :=
  ⟨rfl, rfl, rfl, rfl⟩

/-- C4: both copies of the interleaved wire-tag mapping (`lib.rs` and
`format.rs`) and the planar mapping are the identity table of the claim:
Int16 to the int16 tag, Int32 to int32, Float32 to float32, Float64 to
float64; each mapping is injective (hence bijective onto its four tags)
and total over the four sample formats by construction, and no mapping
sends Float32 or Float64 to a 16-bit integer tag. -/
theorem sample_wire_tag_mappings :
    (interleaved .Int16 = SOXR_INT16_I ∧ interleaved .Int32 = SOXR_INT32_I ∧
     interleaved .Float32 = SOXR_FLOAT32_I ∧ interleaved .Float64 = SOXR_FLOAT64_I) ∧
    (format.interleaved .Int16 = SOXR_INT16_I ∧ format.interleaved .Int32 = SOXR_INT32_I ∧
     format.interleaved .Float32 = SOXR_FLOAT32_I ∧ format.interleaved .Float64 = SOXR_FLOAT64_I) ∧
    (format.planar .Int16 = SOXR_INT16_S ∧ format.planar .Int32 = SOXR_INT32_S ∧
     format.planar .Float32 = SOXR_FLOAT32_S ∧ format.planar .Float64 = SOXR_FLOAT64_S) ∧
    Function.Injective interleaved ∧
    Function.Injective format.interleaved ∧
    Function.Injective format.planar ∧
    (interleaved .Float32 ≠ SOXR_INT16_I ∧ interleaved .Float64 ≠ SOXR_INT16_I ∧
     format.interleaved .Float32 ≠ SOXR_INT16_I ∧ format.interleaved .Float64 ≠ SOXR_INT16_I ∧
     format.planar .Float32 ≠ SOXR_INT16_S ∧ format.planar .Float64 ≠ SOXR_INT16_S) := by
  decide

/-- C3 counterexample: the session type's public API surface contains no
`set_io_ratio` and no `set_rates` operation, contradicting the claim that
the session exposes a rate-change operation. -/
theorem session_rate_change_missing :
    ¬ ∃ op : SessionOp, SessionOp.name op = "set_io_ratio" ∨
      SessionOp.name op = "set_rates" := by
  decide

/-- C3 amended: the session exposes exactly the operations `new`,
`new_with_params`, `as_ptr`, `process`, `drain` and `clear`; it exposes no
rate-change operation. -/
theorem session_api_surface :
    (∀ op : SessionOp, op ∈ [SessionOp.new, SessionOp.new_with_params,
      SessionOp.as_ptr, SessionOp.process, SessionOp.drain, SessionOp.clear]) ∧
    (∀ op : SessionOp, SessionOp.name op ≠ "set_io_ratio" ∧
      SessionOp.name op ≠ "set_rates") := by
  decide

/-- C1: when the channel count N does not fit in c_uint, `Soxr::new` and
`Soxr::new_with_params` return the synthetic `CHANNEL_COUNT_TOO_LARGE`
error and `sys::soxr_create` is never invoked (the call list is empty);
when N fits, the value is passed to the creation call unchanged. -/
theorem new_channel_count_guard (create : SoxrCreateFn) (N : Nat) :
    (cUintMax < N →
      Soxr.new_with_params create N = (.error CHANNEL_COUNT_TOO_LARGE, []) ∧
      Soxr.new create N = (.error CHANNEL_COUNT_TOO_LARGE, [])) ∧
    (N ≤ cUintMax →
      (Soxr.new_with_params create N).2 = [N] ∧
      (Soxr.new create N).2 = [N]) := by
  constructor
  · intro h
    have hn : cUintTryFrom N = none := by
      simp [cUintTryFrom, Nat.not_le.mpr h]
    constructor <;> simp [Soxr.new, Soxr.new_with_params, hn]
  · intro h
    have hs : cUintTryFrom N = some N := by
      simp [cUintTryFrom, h]
    constructor <;>
      · simp only [Soxr.new, Soxr.new_with_params, hs]
        cases create N <;> simp

/-- Witness for C1: at N = 2^32 the guard fires with no creation call; at
N = 2 the creation call receives exactly 2. -/
theorem new_channel_count_guard_witness :
    Soxr.new_with_params (fun _ => none) 4294967296 =
      (.error CHANNEL_COUNT_TOO_LARGE, []) ∧
    (Soxr.new_with_params (fun _ => none) 2).2 = [2] :=
  ⟨((new_channel_count_guard (fun _ => none) 4294967296).1 (by decide)).1,
   ((new_channel_count_guard (fun _ => none) 2).2 (by decide)).1⟩

/-- C5: `Soxr::process` passes the frame counts of the input and output
slices (not flattened element counts) as the native lengths, with a
non-null input pointer; on engine success the returned `Processed` carries
exactly the consumed and produced counts the engine reported. -/
theorem process_frame_counts {In Out : Type} {N : Nat} (engine : SoxrProcessFn)
    (input : List (Fin N → In)) (output : List (Fin N → Out)) :
    (Soxr.process engine input output).2 =
      ProcessCall.mk false input.length output.length ∧
    (∀ c p : Nat, engine false input.length output.length = ⟨none, c, p⟩ →
      (Soxr.process engine input output).1 = .ok (Processed.mk c p)) := by
  constructor
  · cases h : (engine false input.length output.length).err <;>
      simp [Soxr.process, Error.check, h]
  · intro c p h
    simp [Soxr.process, h, Error.check]

/-- Witness for C5: an engine echoing its lengths, 3 input frames and 5
output frames of 2 channels. -/
theorem process_frame_counts_witness :
    (Soxr.process (fun _ n m => EngineProcessResult.mk none n m)
      (List.replicate 3 (fun _ => 0) : List (Fin 2 → Int))
      (List.replicate 5 (fun _ => 0) : List (Fin 2 → Int))).1 =
      .ok (Processed.mk 3 5) :=
  (process_frame_counts (fun _ n m => EngineProcessResult.mk none n m)
    (List.replicate 3 (fun _ => 0)) (List.replicate 5 (fun _ => 0))).2 3 5 rfl

/-- C6: `Soxr::drain` invokes the native process call with a null input
pointer and input length 0, passes the output buffer's frame count as the
output length, and on engine success returns exactly the produced count
the engine reported. -/
theorem drain_null_input {Out : Type} {N : Nat} (engine : SoxrProcessFn)
    (output : List (Fin N → Out)) :
    (Soxr.drain engine output).2 = ProcessCall.mk true 0 output.length ∧
    (∀ c p : Nat, engine true 0 output.length = ⟨none, c, p⟩ →
      (Soxr.drain engine output).1 = .ok p) := by
  constructor
  · cases h : (engine true 0 output.length).err <;>
      simp [Soxr.drain, Error.check, h]
  · intro c p h
    simp [Soxr.drain, h, Error.check]

/-- Witness for C6: an engine that flushes 4 frames into a 6-frame output
buffer. -/
theorem drain_null_input_witness :
    (Soxr.drain (fun _ _ _ => EngineProcessResult.mk none 0 4)
      (List.replicate 6 (fun _ => 0) : List (Fin 2 → Int))).1 = .ok 4 :=
  (drain_null_input (fun _ _ _ => EngineProcessResult.mk none 0 4)
    (List.replicate 6 (fun _ => 0))).2 0 4 rfl

/-- C7: `Error::check` returns `Ok(())` exactly when the diagnostic
pointer is null, and wraps every non-null pointer as an `Err` carrying
exactly that diagnostic string; consequently `clear`, `process` and
`drain` propagate every non-null engine diagnostic as an `Error`. -/
theorem check_ok_iff_null :
    (∀ e : Option String, Error.check e = .ok () ↔ e = none) ∧
    (∀ s : String, Error.check (some s) = .error (Error.mk s)) ∧
    (∀ s : String, Soxr.clear (some s) = .error (Error.mk s)) ∧
    (Soxr.clear none = .ok ()) ∧
    (∀ (engine : SoxrProcessFn) (input output : List (Fin 2 → Int)) (d : String) (c p : Nat),
      engine false input.length output.length = ⟨some d, c, p⟩ →
      (Soxr.process engine input output).1 = .error (Error.mk d)) ∧
    (∀ (engine : SoxrProcessFn) (output : List (Fin 2 → Int)) (d : String) (c p : Nat),
      engine true 0 output.length = ⟨some d, c, p⟩ →
      (Soxr.drain engine output).1 = .error (Error.mk d)) := by
  refine ⟨?_, fun s => rfl, fun s => rfl, rfl, ?_, ?_⟩
  · intro e
    cases e <;> simp [Error.check, Error.from_raw]
  · intro engine input output d c p h
    simp [Soxr.process, h, Error.check, Error.from_raw]
  · intro engine output d c p h
    simp [Soxr.drain, h, Error.check, Error.from_raw]

/-- Witness for C7: a concrete diagnostic string propagates through
`check`, `process` and `drain`. -/
theorem check_ok_iff_null_witness :
    (Error.check none = .ok () ↔ (none : Option String) = none) ∧
    (Soxr.process (fun _ _ _ => EngineProcessResult.mk (some "resampling error") 0 0)
      ([] : List (Fin 2 → Int)) ([] : List (Fin 2 → Int))).1 =
      .error (Error.mk "resampling error") ∧
    (Soxr.drain (fun _ _ _ => EngineProcessResult.mk (some "resampling error") 0 0)
      ([] : List (Fin 2 → Int))).1 = .error (Error.mk "resampling error") :=
  ⟨check_ok_iff_null.1 none,
   check_ok_iff_null.2.2.2.2.1 (fun _ _ _ => EngineProcessResult.mk (some "resampling error") 0 0)
     [] [] "resampling error" 0 0 rfl,
   check_ok_iff_null.2.2.2.2.2 (fun _ _ _ => EngineProcessResult.mk (some "resampling error") 0 0)
     [] "resampling error" 0 0 rfl⟩

/-- The default runtime record (10/17/400/1 with flags 0), as a concrete
`RuntimeSpec` built through `from_raw`. -/
def defaultRuntimeSpec : RuntimeSpec :=
  RuntimeSpec.from_raw (soxr_runtime_spec.mk 10 17 400 1 0)

/-- C8: reading a `RuntimeSpec` field immediately after setting it returns
the written value for `num_threads`, `log2_min_dft_size` and
`log2_large_dft_size`; for `coef_size_kbytes` it does not: the getter in
the source reads the `log2_large_dft_size` field, so after writing 123 into
the default record the getter returns 17, although 123 was stored in the
raw `coef_size_kbytes` field. -/
theorem runtime_spec_get_after_set :
    (∀ (r : RuntimeSpec) (x : Nat), (r.with_num_threads x).num_threads = x) ∧
    (∀ (r : RuntimeSpec) (x : Nat),
      (r.with_log2_min_dft_size x).log2_min_dft_size = x) ∧
    (∀ (r : RuntimeSpec) (x : Nat),
      (r.with_log2_large_dft_size x).log2_large_dft_size = x) ∧
    (defaultRuntimeSpec.with_coef_size_kbytes 123).coef_size_kbytes = 17 ∧
    (defaultRuntimeSpec.with_coef_size_kbytes 123).coef_size_kbytes ≠ 123 ∧
    (defaultRuntimeSpec.with_coef_size_kbytes 123).raw.coef_size_kbytes = 123 := by
  refine ⟨fun r x => rfl, fun r x => rfl, fun r x => rfl, rfl, by decide, rfl⟩

/-- C9: the packing `flags.bits() | rolloff as u8` used by
`QualitySpec::configure` is injective on (rolloff, flags) pairs — rolloff
discriminants 0..2 live below bit 3, the quality flags at bits 3..5 — and
both components are recoverable from the packed word. -/
theorem configure_flags_packing :
    (∀ (r1 r2 : Rolloff) (f1 f2 : QualityFlags),
      QualitySpec.configureFlags r1 f1 = QualitySpec.configureFlags r2 f2 →
      r1 = r2 ∧ f1 = f2) ∧
    (∀ (r : Rolloff) (f : QualityFlags),
      QualitySpec.configureFlags r f % 8 = r.toRaw ∧
      QualitySpec.configureFlags r f / 8 * 8 = f.bits) := by
  decide

/-- Witness for C9: two concrete pairs with equal packed words are equal. -/
theorem configure_flags_packing_witness :
    Rolloff.Medium = Rolloff.Medium ∧
    QualityFlags.mk true false true = QualityFlags.mk true false true :=
  configure_flags_packing.1 Rolloff.Medium Rolloff.Medium
    (QualityFlags.mk true false true) (QualityFlags.mk true false true) (by decide)
